import Mathlib

/-!
Verification of the table-extraction pipeline
(`src/table_extractor/pipeline/pipeline.py`) against its natural-language
specification.

The development shallowly embeds the pure decision logic of the pipeline:
geometry is modelled over `Int` pixel coordinates, Python `float` ratios are
modelled as exact rationals (`ℚ`; every float literal appearing in the source
— `0.5`, `0.75`, `0.2` — denotes a dyadic-or-near value whose comparisons at
the concrete inputs used here agree with the exact rational semantics), and
collaborator calls (detectors, OCR, the header classifier) are abstracted as
explicit inputs.  Functions keep the names of their Python counterparts.
-/

/-! ## Geometry primitives

`BorderBox` is the axis-aligned box of `table_extractor/model/table.py`
(corner fields keep the source names).  That file is not under `src/`, so its
two operations used by `pipeline.py` are modelled from the spec (§4.1).
-/

/-- Axis-aligned box in pixel coordinates, as in the source `BorderBox`. -/
structure BorderBox where
  top_left_x : Int
  top_left_y : Int
  bottom_right_x : Int
  bottom_right_y : Int
deriving DecidableEq, Repr

/-- Modelled from the spec: §4.1 `merge(a,b)` returns the box whose corners are
the element-wise min/max of the two boxes' corners (`BorderBox.merge` of
`model/table.py`, which is not under `src/`). -/
def BorderBox.merge (a b : BorderBox) : BorderBox :=
  { top_left_x := min a.top_left_x b.top_left_x
    top_left_y := min a.top_left_y b.top_left_y
    bottom_right_x := max a.bottom_right_x b.bottom_right_x
    bottom_right_y := max a.bottom_right_y b.bottom_right_y }

/-- Modelled from the spec: §4.1 `contains(inner, outer, tolerance)` at
tolerance 0 is exact containment of `inner`'s corners within `outer`'s
(`BorderBox.box_is_inside_another` of `model/table.py`, not under `src/`;
`pipeline.py` calls it as `inner.box_is_inside_another(outer, threshold)` and
every call relevant here passes threshold 0). -/
def BorderBox.box_is_inside_another (inner outer : BorderBox) : Bool :=
  decide (outer.top_left_x ≤ inner.top_left_x) &&
  decide (outer.top_left_y ≤ inner.top_left_y) &&
  decide (inner.bottom_right_x ≤ outer.bottom_right_x) &&
  decide (inner.bottom_right_y ≤ outer.bottom_right_y)

/-- Propositional form of exact containment, for stating lemmas. -/
def BorderBox.inside (inner outer : BorderBox) : Prop :=
  outer.top_left_x ≤ inner.top_left_x ∧ outer.top_left_y ≤ inner.top_left_y ∧
  inner.bottom_right_x ≤ outer.bottom_right_x ∧ inner.bottom_right_y ≤ outer.bottom_right_y

/-- A recognized text fragment: box plus text (source `TextField`). -/
structure TextField where
  bbox : BorderBox
  text : String
deriving DecidableEq, Repr

/-- A table cell: box plus its owned text fragments (source `Cell`, which
extends `BorderBox` with `text_boxes`). -/
structure Cell where
  bbox : BorderBox
  text_boxes : List TextField
deriving DecidableEq, Repr

/-! ## Digit density (`cnt_ciphers`, pipeline.py lines 30-39) -/

/-- The digit characters of the source literal `'0123456789'`. -/
def cipher_chars : List Char :=
  ['0', '1', '2', '3', '4', '5', '6', '7', '8', '9']

/-- Membership test mirroring `char in '0123456789'`. -/
def is_cipher (c : Char) : Bool := cipher_chars.contains c

/-- The concatenated text of one cell's fragments
(`"".join([tb.text for tb in cell.text_boxes])`). -/
def cell_sentence (cell : Cell) : String :=
  String.join (cell.text_boxes.map (fun tb => tb.text))

/-- The accumulation loop of `cnt_ciphers`: running `(count, all_chars_count)`
over the cells. -/
def cnt_ciphers_counts (cells : List Cell) : Nat × Nat :=
  cells.foldl
    (fun acc cell =>
      let sentence := cell_sentence cell
      (acc.1 + (sentence.toList.filter is_cipher).length, acc.2 + sentence.length))
    (0, 0)

/-- `cnt_ciphers(cells)`: digit characters over all characters of the cells'
concatenated text; `0` when there are no characters
(`count / all_chars_count if all_chars_count else 0.`). -/
def cnt_ciphers (cells : List Cell) : ℚ :=
  if (cnt_ciphers_counts cells).2 = 0 then 0
  else ((cnt_ciphers_counts cells).1 : ℚ) / ((cnt_ciphers_counts cells).2 : ℚ)

/-- All characters of the cells' concatenated text, in order (reference
notion for the `cnt_ciphers` specification). -/
def all_cells_text (cells : List Cell) : List Char :=
  (cells.map (fun cell => (cell_sentence cell).toList)).flatten

/-! ## Digit-density header fallback (`actualize_header`, lines 42-60) -/

/-- A structured table as consumed by `actualize_header`: its box, flat cell
list, and its rows.  In the source, `rows` is a grouping of the linked cells
computed in `model/table.py` (not under `src/`); it is taken here as data. -/
structure StructuredTable where
  bbox : BorderBox
  cells : List Cell
  rows : List (List Cell)
deriving DecidableEq, Repr

/-- A structured table with a chosen header (source `StructuredTableHeadered`,
constructed in `actualize_header` via the three fields used there). -/
structure StructuredTableHeadered where
  bbox : BorderBox
  cells : List Cell
  header : List (List Cell)
deriving DecidableEq, Repr

/-- Modelled from the spec: `StructuredTableHeadered.from_structured_and_rows`
(`model/table.py`, not under `src/`) attaches the given rows as the header of
the table (§3: HeaderedTable = StructuredTable + header row set). -/
def from_structured_and_rows (t : StructuredTable) (hdr : List (List Cell)) :
    StructuredTableHeadered :=
  { bbox := t.bbox, cells := t.cells, header := hdr }

/-- The scan of `actualize_header`: row 0 always joins; every later row joins
while its digit density does not exceed `current_ciphers`, which the source
sets to row 0's density and never updates (`for row in table_rows[1:]: if
count > current_ciphers: break else: header_candidates.append(row)`). -/
def header_scan (rows : List (List Cell)) : List (List Cell) :=
  match rows with
  | [] => []
  | r0 :: rest =>
    r0 :: rest.takeWhile (fun row => decide (cnt_ciphers row ≤ cnt_ciphers r0))

/-- `actualize_header(table)` (lines 42-60).  On `rows = []` the Python raises
an `IndexError`; the embedding returns the empty header there. -/
def actualize_header (t : StructuredTable) : StructuredTableHeadered :=
  if (header_scan t.rows).length < t.rows.length then
    from_structured_and_rows t (header_scan t.rows)
  else
    { bbox := t.bbox, cells := t.cells, header := [] }

/-- The scan exactly as claim C2 words it: a row joins while its density is
`≤` the density of the *previous accepted* row (the baseline updates). -/
def header_scan_prev (prev : ℚ) : List (List Cell) → List (List Cell)
  | [] => []
  | row :: rest =>
    if cnt_ciphers row > prev then []
    else row :: header_scan_prev (cnt_ciphers row) rest

/-- The header scan as claim C2 words it, from row 0. -/
def header_scan_claim (rows : List (List Cell)) : List (List Cell) :=
  match rows with
  | [] => []
  | r0 :: rest => r0 :: header_scan_prev (cnt_ciphers r0) rest

/-- `actualize_header` as claim C2 words it (updating baseline). -/
def actualize_header_claim (t : StructuredTable) : StructuredTableHeadered :=
  if (header_scan_claim t.rows).length < t.rows.length then
    { bbox := t.bbox, cells := t.cells, header := header_scan_claim t.rows }
  else
    { bbox := t.bbox, cells := t.cells, header := [] }

/-- The scan under the amended reading of C2: the comparison baseline is row
0's density and is never updated. -/
def header_scan_base (base : ℚ) : List (List Cell) → List (List Cell)
  | [] => []
  | row :: rest =>
    if cnt_ciphers row > base then []
    else row :: header_scan_base base rest

/-- The header scan under the amended reading of C2, from row 0. -/
def header_scan_amended (rows : List (List Cell)) : List (List Cell) :=
  match rows with
  | [] => []
  | r0 :: rest => r0 :: header_scan_base (cnt_ciphers r0) rest

/-- `actualize_header` as amended: fixed row-0 baseline. -/
def actualize_header_amended (t : StructuredTable) : StructuredTableHeadered :=
  if (header_scan_amended t.rows).length < t.rows.length then
    { bbox := t.bbox, cells := t.cells, header := header_scan_amended t.rows }
  else
    { bbox := t.bbox, cells := t.cells, header := [] }

/-- A one-cell row whose single fragment carries the given text. -/
def mk_text_row (s : String) : List Cell :=
  [{ bbox := { top_left_x := 0, top_left_y := 0, bottom_right_x := 10, bottom_right_y := 10 },
     text_boxes := [{ bbox := { top_left_x := 0, top_left_y := 0,
                                bottom_right_x := 10, bottom_right_y := 10 },
                      text := s }] }]

/-- Concrete table separating the two readings of C2: row digit densities are
`1/2, 1/5, 2/5, 1`. -/
def c2_table : StructuredTable :=
  { bbox := { top_left_x := 0, top_left_y := 0, bottom_right_x := 100, bottom_right_y := 100 }
    cells := []
    rows := [mk_text_row "a0", mk_text_row "aaaa0", mk_text_row "aa0a0", mk_text_row "00"] }

/-! ## Grid line snapping (`bordered_to_struct`, pipeline.py lines 147-170) -/

/-- `sorted(list(set(l)))`: the ascending list of the distinct elements. -/
def sorted_dedup (l : List Int) : List Int :=
  List.insertionSort (fun a b => a ≤ b) l.dedup

/-- The edge-snapping of `bordered_to_struct`, applied to an already sorted
edge list `s`: keep `s[0]` and `s[-1]`, then for
`i in range(0, len(s[1:-1]) // 2)` append `(s[2*i] + s[2*i+1]) // 2`
(note the source indexes the *full* list from position 0), finally
`sorted(list(set(...)))`.  Python `//` is floor division (`Int.fdiv`). -/
def snap_core : List Int → List Int
  | [] => []
  | a :: rest =>
    let s := a :: rest
    let mids := (List.range (rest.dropLast.length / 2)).map
      (fun i => (s.getD (2 * i) 0 + s.getD (2 * i + 1) 0).fdiv 2)
    sorted_dedup ([a, rest.getLastD a] ++ mids)

/-- The full snap of `bordered_to_struct`: sort the collected edges, then
`snap_core`.  On the empty list the Python raises (`v_lines[0]`); the
embedding returns `[]`. -/
def snap_lines (edges : List Int) : List Int :=
  snap_core (List.insertionSort (fun a b => a ≤ b) edges)

/-- The snap as claims C1/C8 word it: keep the first and last of the sorted
sequence verbatim and collapse each remaining consecutive pair of *interior*
elements (indices 1-2, 3-4, ...) into its integer midpoint. -/
def snap_core_spec : List Int → List Int
  | [] => []
  | a :: rest =>
    let interior := rest.dropLast
    let mids := (List.range (interior.length / 2)).map
      (fun i => (interior.getD (2 * i) 0 + interior.getD (2 * i + 1) 0).fdiv 2)
    sorted_dedup ([a, rest.getLastD a] ++ mids)

/-- Sorted variant of the reference snap of claims C1/C8. -/
def snap_lines_spec (edges : List Int) : List Int :=
  snap_core_spec (List.insertionSort (fun a b => a ≤ b) edges)

/-- A bordered-detector table as consumed by `bordered_to_struct`: ordered row
bands and column bands, each a box (`row.bbox` / `col.bbox`). -/
structure BorderedTable where
  rows : List BorderBox
  cols : List BorderBox
deriving DecidableEq, Repr

/-- The snapped vertical lines of `bordered_to_struct`
(`v_lines.extend([col.bbox.top_left_x, col.bbox.bottom_right_x])`, then the
snap; lines 148-155). -/
def bordered_v_lines (t : BorderedTable) : List Int :=
  snap_lines ((t.cols.map (fun col => [col.top_left_x, col.bottom_right_x])).flatten)

/-- The snapped horizontal lines of `bordered_to_struct`
(`h_lines.extend([row.bbox.top_left_y, row.bbox.bottom_right_y])`, then the
snap; lines 157-164).  The remaining grid construction is delegated to
`find_grid_table` / `reconstruct_table_from_grid`, which are not under
`src/`. -/
def bordered_h_lines (t : BorderedTable) : List Int :=
  snap_lines ((t.rows.map (fun row => [row.top_left_y, row.bottom_right_y])).flatten)

/-- A bordered table with two exact row bands `y ∈ [0,10], [10,20]` and two
exact column bands `x ∈ [0,10], [10,20]`: the ideal 2×2 grid. -/
def c1_table : BorderedTable :=
  { rows := [{ top_left_x := 0, top_left_y := 0, bottom_right_x := 20, bottom_right_y := 10 },
             { top_left_x := 0, top_left_y := 10, bottom_right_x := 20, bottom_right_y := 20 }]
    cols := [{ top_left_x := 0, top_left_y := 0, bottom_right_x := 10, bottom_right_y := 20 },
             { top_left_x := 10, top_left_y := 0, bottom_right_x := 20, bottom_right_y := 20 }] }

/-! ## Closest-text-field merging (`merge_closest_text_fields`, lines 101-119) -/

/-- The sort key of `sorted(text_fields, key=lambda x: (x.bbox.top_left_y,
x.bbox.top_left_x))`, as a total preorder on text fields. -/
def tf_key_le (a b : TextField) : Prop :=
  a.bbox.top_left_y < b.bbox.top_left_y ∨
    (a.bbox.top_left_y = b.bbox.top_left_y ∧ a.bbox.top_left_x ≤ b.bbox.top_left_x)

instance : DecidableRel tf_key_le := fun a b => by
  unfold tf_key_le
  exact inferInstance

/-- The gap test `20 > text_field.bbox.top_left_x - curr_field.bbox.bottom_right_x > -20`. -/
def gap_in_range (next curr : TextField) : Bool :=
  decide (next.bbox.top_left_x - curr.bbox.bottom_right_x < 20) &&
  decide (next.bbox.top_left_x - curr.bbox.bottom_right_x > -20)

/-- The merge of the accumulator with the next field: merged box, texts joined
by a single space. -/
def merge_curr (curr next : TextField) : TextField :=
  { bbox := curr.bbox.merge next.bbox, text := curr.text ++ " " ++ next.text }

/-- One loop iteration of `merge_closest_text_fields` over state
`(curr_field, merged_fields)`.  The source first runs
`if not curr_field: curr_field = text_field` and then — with no `else` —
falls through to the gap test, so on the very first iteration the incoming
field is compared against itself. -/
def merge_closest_step (acc : Option TextField × List TextField) (tf : TextField) :
    Option TextField × List TextField :=
  let c := match acc.1 with
    | none => tf
    | some c => c
  if gap_in_range tf c then (some (merge_curr c tf), acc.2)
  else (some tf, acc.2 ++ [c])

/-- `merge_closest_text_fields(text_fields)` (lines 101-119): sort by
`(top, left)`, fold the step, flush the final accumulator. -/
def merge_closest_text_fields (tfs : List TextField) : List TextField :=
  let res := (List.insertionSort tf_key_le tfs).foldl merge_closest_step (none, [])
  match res.1 with
  | none => res.2
  | some c => res.2 ++ [c]

/-- The sweep as claim C3 words it: the first field starts the accumulator
(without being compared against itself); each later field either merges into
the accumulator (gap strictly within `(-20, 20)`) or flushes it. -/
def merge_closest_sweep : TextField → List TextField → List TextField
  | acc, [] => [acc]
  | acc, tf :: rest =>
    if gap_in_range tf acc then merge_closest_sweep (merge_curr acc tf) rest
    else acc :: merge_closest_sweep tf rest

/-- `merge_closest_text_fields` as claim C3 words it. -/
def merge_closest_text_fields_spec (tfs : List TextField) : List TextField :=
  match List.insertionSort tf_key_le tfs with
  | [] => []
  | tf :: rest => merge_closest_sweep tf rest

/-- A single narrow text field (width 10 < 20). -/
def c3_field : TextField :=
  { bbox := { top_left_x := 0, top_left_y := 0, bottom_right_x := 10, bottom_right_y := 10 }
    text := "a" }

/-- A single wide text field (width 100 ≥ 20). -/
def c3_wide_field : TextField :=
  { bbox := { top_left_x := 0, top_left_y := 0, bottom_right_x := 100, bottom_right_y := 10 }
    text := "w" }

/-! ## Two-source text reconciliation (`merge_text_fields`, lines 63-88) -/

/-- The merged fields one `poppler` field contributes: one merged field per
`paddle` field that contains it (threshold 0), with the enclosing box and the
`poppler` text. -/
def pop_merged (paddle_t_b : List TextField) (pop : TextField) : List TextField :=
  (paddle_t_b.filter (fun pad => pop.bbox.box_is_inside_another pad.bbox)).map
    (fun pad => { bbox := pad.bbox.merge pop.bbox, text := pop.text })

/-- `merge_text_fields(paddle_t_b, poppler_t_b)` (lines 63-88).  Phase 1
emits the merged fields and passes through unmatched `poppler` fields; phase
2 passes through every `paddle` field `pad` for which no already-merged field
lies inside `pad` (`mer_t_b.bbox.box_is_inside_another(pad_t_b.bbox)`);
result is `merged ++ unmatched_poppler ++ unmatched_paddle`. -/
def merge_text_fields (paddle_t_b poppler_t_b : List TextField) : List TextField :=
  let merged_t_b := (poppler_t_b.map (pop_merged paddle_t_b)).flatten
  let not_matched_pop := poppler_t_b.filter
    (fun pop => paddle_t_b.all (fun pad => ! pop.bbox.box_is_inside_another pad.bbox))
  let not_matched_pad := paddle_t_b.filter
    (fun pad => merged_t_b.all (fun mer => ! mer.bbox.box_is_inside_another pad.bbox))
  merged_t_b ++ not_matched_pop ++ not_matched_pad

/-- `merge_text_fields` as claim C6 words it: phase 2 passes through every
`paddle` field *not contained in* any emitted merged field (the containment
direction is reversed relative to the source). -/
def merge_text_fields_claim (paddle_t_b poppler_t_b : List TextField) : List TextField :=
  let merged_t_b := (poppler_t_b.map (pop_merged paddle_t_b)).flatten
  let not_matched_pop := poppler_t_b.filter
    (fun pop => paddle_t_b.all (fun pad => ! pop.bbox.box_is_inside_another pad.bbox))
  let not_matched_pad := paddle_t_b.filter
    (fun pad => merged_t_b.all (fun mer => ! pad.bbox.box_is_inside_another mer.bbox))
  merged_t_b ++ not_matched_pop ++ not_matched_pad

/-- `merge_text_fields` as amended: phase 2 passes through exactly the
`paddle` fields that contain no `poppler` field (threshold 0). -/
def merge_text_fields_amended (paddle_t_b poppler_t_b : List TextField) : List TextField :=
  let merged_t_b := (poppler_t_b.map (pop_merged paddle_t_b)).flatten
  let not_matched_pop := poppler_t_b.filter
    (fun pop => paddle_t_b.all (fun pad => ! pop.bbox.box_is_inside_another pad.bbox))
  let not_matched_pad := paddle_t_b.filter
    (fun pad => poppler_t_b.all (fun pop => ! pop.bbox.box_is_inside_another pad.bbox))
  merged_t_b ++ not_matched_pop ++ not_matched_pad

/-- Source-A (`paddle`) fields for the C6 counterexample: a large field and a
small unmatched field nested strictly inside the region the merge will cover. -/
def c6_paddle : List TextField :=
  [{ bbox := { top_left_x := 0, top_left_y := 0, bottom_right_x := 100, bottom_right_y := 100 }
     text := "A1" },
   { bbox := { top_left_x := 50, top_left_y := 50, bottom_right_x := 60, bottom_right_y := 60 }
     text := "A2" }]

/-- Source-B (`poppler`) fields for the C6 counterexample: one small field
contained only in the first A field. -/
def c6_poppler : List TextField :=
  [{ bbox := { top_left_x := 0, top_left_y := 0, bottom_right_x := 10, bottom_right_y := 10 }
     text := "b" }]

/-! ## Borderless fusion policy (`process_page`, lines 402-414)

All collaborator outputs feeding the decision at line 407 are carried as
data: the region's label, whether `semi_bordered` returned a table, the two
`match_cells_table` / `match_cells_text_fields` scores, the two cell counts,
and whether each reconstruction call produced a (truthy) table.
-/

/-- One inference region together with the collaborator outputs that the
per-region fusion decision consumes. -/
structure RegionInput where
  label : String
  semi_border_found : Bool
  semi_border_score : Nat
  semi_cell_count : Nat
  tags_count : Nat
  mask_rcnn_count_matches : Nat
  semi_struct_ok : Bool
  mask_struct_ok : Bool
deriving DecidableEq, Repr

/-- Which reconstruction became the region's candidate. -/
inductive ReconKind
  | semiBordered
  | maskDerived
deriving DecidableEq, Repr

/-- The fall-through branch: `extract_table_from_inference` (mask-based
build); records `(mask_rcnn_count_matches, struct)` when the build returned a
table (`if struct: detected_tables.append(...)`). -/
def mask_branch (r : RegionInput) : Option (Nat × ReconKind) :=
  if r.mask_struct_ok then some (r.mask_rcnn_count_matches, ReconKind.maskDerived) else none

/-- The per-region candidate selection of `process_page` (lines 402-414):
for a Borderless region whose `semi_bordered` call produced a table, adopt
the semi-bordered reconstruction when `semi_border_score >=
mask_rcnn_count_matches and semi_border.count_cells() > len(inf_table.tags)`
(the `continue` skips the mask build even when `semi_border_to_struct` is
falsy); otherwise build from the mask proposals. -/
def process_region (r : RegionInput) : Option (Nat × ReconKind) :=
  if r.label = "Borderless" then
    if r.semi_border_found then
      if r.semi_border_score ≥ r.mask_rcnn_count_matches ∧ r.semi_cell_count > r.tags_count then
        if r.semi_struct_ok then some (r.semi_border_score, ReconKind.semiBordered) else none
      else mask_branch r
    else mask_branch r
  else mask_branch r

/-- The spec example: `semi_score=5, semi_cells=6` vs `mask_score=4,
proposal cells=5`. -/
def c4_region_adopt : RegionInput :=
  { label := "Borderless", semi_border_found := true, semi_border_score := 5
    semi_cell_count := 6, tags_count := 5, mask_rcnn_count_matches := 4
    semi_struct_ok := true, mask_struct_ok := true }

/-- The spec example with `semi_score=3` instead. -/
def c4_region_fallback : RegionInput :=
  { label := "Borderless", semi_border_found := true, semi_border_score := 3
    semi_cell_count := 6, tags_count := 5, mask_rcnn_count_matches := 4
    semi_struct_ok := true, mask_struct_ok := true }

/-! ## Bordered re-reconciliation (`process_page`, lines 420-439) -/

/-- A pending table candidate `(score, inf_table)` of `detected_tables`,
reduced to the data the reconciliation reads: its score, its cell count
(`len(inf_table.cells)`), and an identifier standing for the table object. -/
structure DetectedCand where
  score : Nat
  cell_count : Nat
  table_id : Nat
deriving DecidableEq, Repr

/-- What the reconciliation of one bordered region appends to `page.tables`. -/
inductive PageEntry
  | borderedRecon (b_id : Nat)
  | keptCandidate (table_id : Nat)
deriving DecidableEq, Repr

/-- The inner loop of the bordered re-reconciliation (lines 421-439) for one
bordered region, over the pending `detected_tables` list.  `inside_bordered`
abstracts `inf_table.bbox.box_is_inside_another(bordered_table.bbox)`,
`bordered_score` abstracts the re-matched `match_cells_table` result for a
candidate, `bordered_cell_count` is `bordered_table.count_cells()`,
`struct_ok` whether `semi_border_to_struct` returned a table, and `b_id`
stands for the adopted reconstruction.  Returns the remaining pending list,
the entries appended to `page.tables`, and the `matched` flag; the matched
candidate is removed (`detected_tables.remove(...)`) and the loop breaks.
The source float literal `0.5` is the exact rational `1/2`. -/
def reconcile_bordered
    (inside_bordered : DetectedCand → Bool) (bordered_score : DetectedCand → Nat)
    (bordered_cell_count : Nat) (struct_ok : Bool) (b_id : Nat) :
    List DetectedCand → List DetectedCand × List PageEntry × Bool
  | [] => ([], [], false)
  | c :: rest =>
    if inside_bordered c then
      let entries :=
        if (bordered_score c : ℚ) ≥ (c.score : ℚ) * (1 / 2) ∧
            (bordered_cell_count : ℚ) ≥ (c.cell_count : ℚ) * (1 / 2) then
          if struct_ok then [PageEntry.borderedRecon b_id] else []
        else [PageEntry.keptCandidate c.table_id]
      (rest, entries, true)
    else
      let res := reconcile_bordered inside_bordered bordered_score bordered_cell_count
        struct_ok b_id rest
      (c :: res.1, res.2.1, res.2.2)

/-- The spec's boundary-case candidate: `score=10, cells=8`. -/
def c5_cand : DetectedCand := { score := 10, cell_count := 8, table_id := 0 }

/-- A second pending candidate the bordered region does not contain. -/
def c5_other : DetectedCand := { score := 7, cell_count := 9, table_id := 1 }

/-! ## Classifier-based header inference (`analyse` / `create_header`,
lines 260-297) -/

/-- One cell together with its header-classifier output
(`header_score, cell_score = header_checker.get_cell_score(cell)`; the
classifier is an external collaborator, §6). -/
structure ScoredCell where
  header_score : ℚ
  cell_score : ℚ
deriving DecidableEq, Repr

/-- `PageProcessor.analyse(series)` (lines 260-269): the line is header-like
iff the count of cells whose header score exceeds the body score is
`> len(series)/5` when `len(series) > 5`, else `> len(series)/2` (float
division modelled exactly in `ℚ`). -/
def analyse (series : List ScoredCell) : Bool :=
  let headers := series.filter (fun cell => decide (cell.header_score > cell.cell_score))
  let thresh := 5
  if series.length > thresh then
    decide ((headers.length : ℚ) > (series.length : ℚ) / (thresh : ℚ))
  else
    decide ((headers.length : ℚ) > (series.length : ℚ) / 2)

/-- `PageProcessor.create_header(series, header_limit)` (lines 271-297):
scan the first `header_limit` lines recording the index of the last
header-like one; the header is the lines up to that index inclusive (empty
when none); a header covering more than `0.75 *` all lines is discarded (the
source also appends the anomalous series to a diagnostic file, a side effect
outside the model).  The two locals of the source are split into the helper
definitions below: `last_header_idx` is the `last_header` loop, `header_of_idx`
the `header` list. -/
def last_header_idx (series : List (List ScoredCell)) (header_limit : Nat) : Option Nat :=
  (series.take header_limit).enum.foldl
    (fun acc p => if analyse p.2 then some p.1 else acc) none

/-- The `header` local of `create_header` as a function of the recorded
index: the scanned lines up to that index inclusive, empty when
`last_header` stayed `None`. -/
def header_upto (scanned : List (List ScoredCell)) : Option Nat → List (List ScoredCell)
  | some k => scanned.take (k + 1)
  | none => []

def header_of_idx (series : List (List ScoredCell)) (header_limit : Nat) :
    List (List ScoredCell) :=
  header_upto (series.take header_limit) (last_header_idx series header_limit)

def create_header (series : List (List ScoredCell)) (header_limit : Nat) :
    List (List ScoredCell) :=
  if decide (((header_of_idx series header_limit).length : ℚ) >
      (3 / 4) * (series.length : ℚ)) then []
  else header_of_idx series header_limit

/-- The header for a given last header-like index, as claim C7 words it:
empty when there is none, else lines 0 through that index inclusive,
discarded when covering more than 75% of all lines. -/
def claim_header_of (series : List (List ScoredCell)) : Option Nat → List (List ScoredCell)
  | none => []
  | some k =>
    if decide (((series.take (k + 1)).length : ℚ) > (3 / 4) * (series.length : ℚ)) then []
    else series.take (k + 1)

def create_header_claim (series : List (List ScoredCell)) (header_limit : Nat) :
    List (List ScoredCell) :=
  claim_header_of series
    ((((series.take header_limit).enum.filter (fun p => analyse p.2)).map Prod.fst).getLast?)

/-- A cell the classifier scores as header-like. -/
def c7_header_cell : ScoredCell := { header_score := 1, cell_score := 0 }

/-- A cell the classifier scores as body-like. -/
def c7_body_cell : ScoredCell := { header_score := 0, cell_score := 1 }

/-- The spec's 10-row example: rows 0-2 and 4 header-like, row 3 not. -/
def c7_series : List (List ScoredCell) :=
  [[c7_header_cell], [c7_header_cell], [c7_header_cell], [c7_body_cell], [c7_header_cell],
   [c7_body_cell], [c7_body_cell], [c7_body_cell], [c7_body_cell], [c7_body_cell]]

/-! ## Early return of `process_page` (lines 368-383, 416-497) -/

/-- A serialized page block (§6 persisted schema: `TableBlock | TextBlock`). -/
inductive Block
  | tableBlock (t : StructuredTableHeadered)
  | textBlock (tf : TextField)
deriving DecidableEq, Repr

/-- The in-memory page: number, box, owned tables and free-text fields
(`Page` of `bordered_service/models.py`, not under `src/`). -/
structure Page where
  page_num : Nat
  bbox : BorderBox
  tables : List StructuredTableHeadered
  text : List TextField
deriving DecidableEq, Repr

/-- Modelled from the spec: `Page.blocks` (`bordered_service/models.py`, not
under `src/`) — the page's blocks are its tables and its free-text fields
(§6: `blocks: [ TableBlock | TextBlock ]`). -/
def Page.blocks (p : Page) : List Block :=
  p.tables.map Block.tableBlock ++ p.text.map Block.textBlock

/-- The serialized page document (`page_to_dict`, lines 227-238). -/
structure PageDict where
  page_num : Nat
  bbox : BorderBox
  blocks : List Block
deriving DecidableEq, Repr

/-- `page_to_dict(page)` (lines 227-238). -/
def page_to_dict (p : Page) : PageDict :=
  { page_num := p.page_num, bbox := p.bbox, blocks := p.blocks }

/-- The observable outcome of one `process_page` call: the returned document,
whether the classical bordered detector (`detect_tables_on_page`, line 417)
was consulted, and whether the free-text extraction block (lines 474-497)
ran. -/
structure PageTrace where
  result : PageDict
  bordered_detector_consulted : Bool
  free_text_extracted : Bool
deriving DecidableEq, Repr

/-- The control-flow skeleton of `PageProcessor.process_page`
(lines 368-383 and onward): the page is created empty, the poppler text layer
`text_fields` is scaled (line 379), and if `inference_service.inference_image`
returned no tables the serialized empty page is returned at once (lines
381-383).  Everything after the early return — the region loop, the bordered
reconciliation, header creation and the free-text pass — is abstracted as
`later`, the document and bordered-consultation flag that path would
produce. -/
def process_page (page_num : Nat) (page_bbox : BorderBox) (text_fields : List TextField)
    (inference_tables : List RegionInput) (later : PageDict × Bool) : PageTrace :=
  let page : Page := { page_num := page_num, bbox := page_bbox, tables := [], text := [] }
  if inference_tables.isEmpty then
    { result := page_to_dict page, bordered_detector_consulted := false
      free_text_extracted := false }
  else
    { result := later.1, bordered_detector_consulted := later.2, free_text_extracted := true }

/-! ## Helper lemmas -/

/-- The `cnt_ciphers` accumulation equals the digit/character counts of the
concatenated text. -/
theorem cnt_ciphers_counts_eq (cells : List Cell) :
    cnt_ciphers_counts cells =
      (((all_cells_text cells).filter is_cipher).length, (all_cells_text cells).length) := by
  have key : ∀ (cs : List Cell) (a b : Nat),
      cs.foldl
        (fun acc cell =>
          let sentence := cell_sentence cell
          (acc.1 + (sentence.toList.filter is_cipher).length, acc.2 + sentence.length))
        (a, b) =
      (a + ((all_cells_text cs).filter is_cipher).length, b + (all_cells_text cs).length) := by
    intro cs
    induction cs with
    | nil => intro a b; simp [all_cells_text]
    | cons c t ih =>
      intro a b
      simp only [List.foldl_cons, ih, all_cells_text, List.map_cons, List.flatten_cons,
        List.filter_append, List.length_append]
      have hlen : (cell_sentence c).length = (cell_sentence c).toList.length := rfl
      rw [hlen]
      simp only [Prod.mk.injEq]
      constructor <;> omega
  have := key cells 0 0
  simpa [cnt_ciphers_counts] using this

/-! ## Claim C9 — `cnt_ciphers` is total and guards the zero denominator -/

/-- C9: `cnt_ciphers` never faults on a zero denominator: on a cell list whose
concatenated text is empty it returns exactly `0`, and otherwise it returns
the digit count divided by the total character count. -/
theorem c9_cnt_ciphers_total_and_guarded (cells : List Cell) :
    (all_cells_text cells = [] → cnt_ciphers cells = 0) ∧
    (all_cells_text cells ≠ [] →
      cnt_ciphers cells =
        (((all_cells_text cells).filter is_cipher).length : ℚ) /
          ((all_cells_text cells).length : ℚ)) := by
  constructor
  · intro h
    simp [cnt_ciphers, cnt_ciphers_counts_eq, h]
  · intro h
    have hne : (all_cells_text cells).length ≠ 0 := by
      simpa [List.length_eq_zero] using h
    simp [cnt_ciphers, cnt_ciphers_counts_eq, hne]

/-- Witness for C9 at concrete inputs: the all-empty-text cell list yields
`0`, and a one-cell list with text `"a1"` yields `1/2`. -/
theorem c9_witness :
    cnt_ciphers [{ bbox := { top_left_x := 0, top_left_y := 0,
                             bottom_right_x := 10, bottom_right_y := 10 }
                   text_boxes := [] }] = 0 ∧
    cnt_ciphers [{ bbox := { top_left_x := 0, top_left_y := 0,
                             bottom_right_x := 10, bottom_right_y := 10 }
                   text_boxes := [{ bbox := { top_left_x := 0, top_left_y := 0,
                                              bottom_right_x := 10, bottom_right_y := 10 }
                                    text := "a1" }] }] = 1 / 2 := by
  constructor
  · exact (c9_cnt_ciphers_total_and_guarded _).1 (by decide)
  · rw [(c9_cnt_ciphers_total_and_guarded _).2 (by decide)]
    have h1 : ((all_cells_text
        [{ bbox := { top_left_x := 0, top_left_y := 0,
                     bottom_right_x := 10, bottom_right_y := 10 }
           text_boxes := [{ bbox := { top_left_x := 0, top_left_y := 0,
                                      bottom_right_x := 10, bottom_right_y := 10 }
                            text := "a1" }] }]).filter is_cipher).length = 1 := by decide
    have h2 : (all_cells_text
        [{ bbox := { top_left_x := 0, top_left_y := 0,
                     bottom_right_x := 10, bottom_right_y := 10 }
           text_boxes := [{ bbox := { top_left_x := 0, top_left_y := 0,
                                      bottom_right_x := 10, bottom_right_y := 10 }
                            text := "a1" }] }]).length = 2 := by decide
    rw [h1, h2]
    norm_num

/-! ## Claim C4 — Borderless semi-bordered adoption policy -/

/-- C4: for a Borderless region whose semi-bordered reconstruction exists
(and both reconstruction builders return tables), the semi-bordered
reconstruction is recorded as the region's candidate iff
`semi_border_score ≥ mask_rcnn_count_matches` and the semi-bordered cell
count strictly exceeds the region's proposal-cell count; otherwise the
mask-based reconstruction is recorded. -/
theorem c4_borderless_adoption (r : RegionInput)
    (hl : r.label = "Borderless") (hf : r.semi_border_found = true)
    (hs : r.semi_struct_ok = true) (hm : r.mask_struct_ok = true) :
    (process_region r = some (r.semi_border_score, ReconKind.semiBordered) ↔
      r.semi_border_score ≥ r.mask_rcnn_count_matches ∧ r.semi_cell_count > r.tags_count) ∧
    (¬(r.semi_border_score ≥ r.mask_rcnn_count_matches ∧ r.semi_cell_count > r.tags_count) →
      process_region r = some (r.mask_rcnn_count_matches, ReconKind.maskDerived)) := by
  constructor
  · constructor
    · intro h
      by_contra hcond
      simp [process_region, mask_branch, hl, hf, hs, hm, hcond] at h
    · intro hcond
      simp [process_region, hl, hf, hs, hcond]
  · intro hcond
    simp [process_region, mask_branch, hl, hf, hs, hm, hcond]

/-- Witness for C4 at the spec's example inputs: `semi_score=5, semi_cells=6,
mask_score=4, proposal cells=5` adopts the semi-bordered reconstruction;
`semi_score=3` falls back to the mask-based one. -/
theorem c4_witness :
    process_region c4_region_adopt = some (5, ReconKind.semiBordered) ∧
    process_region c4_region_fallback = some (4, ReconKind.maskDerived) := by
  constructor
  · exact (c4_borderless_adoption c4_region_adopt rfl rfl rfl rfl).1.mpr (by decide)
  · exact (c4_borderless_adoption c4_region_fallback rfl rfl rfl rfl).2 (by decide)

/-! ## Claim C10 — empty inference result short-circuits the page -/

/-- C10: when the learned region detector returns no regions, `process_page`
returns the serialized empty page at once: the emitted document has an empty
blocks list (even when the page's text layer is nonempty), the classical
bordered detector is never consulted, and no free-text extraction runs. -/
theorem c10_no_inference_early_return (page_num : Nat) (page_bbox : BorderBox)
    (text_fields : List TextField) (inference_tables : List RegionInput)
    (later : PageDict × Bool) (h : inference_tables.isEmpty = true) :
    (process_page page_num page_bbox text_fields inference_tables later).result.blocks = [] ∧
    (process_page page_num page_bbox text_fields inference_tables
        later).bordered_detector_consulted = false ∧
    (process_page page_num page_bbox text_fields inference_tables
        later).free_text_extracted = false := by
  simp [process_page, h, page_to_dict, Page.blocks]

/-- Witness for C10: a page whose text layer holds a field, with no detected
regions, serializes with no blocks at all and consults nothing. -/
theorem c10_witness :
    (process_page 1 { top_left_x := 0, top_left_y := 0,
                      bottom_right_x := 600, bottom_right_y := 800 }
        [{ bbox := { top_left_x := 5, top_left_y := 5,
                     bottom_right_x := 50, bottom_right_y := 20 }
           text := "hello" }] []
        ({ page_num := 1
           bbox := { top_left_x := 0, top_left_y := 0,
                     bottom_right_x := 600, bottom_right_y := 800 }
           blocks := [] }, true)).result.blocks = [] ∧
    (process_page 1 { top_left_x := 0, top_left_y := 0,
                      bottom_right_x := 600, bottom_right_y := 800 }
        [{ bbox := { top_left_x := 5, top_left_y := 5,
                     bottom_right_x := 50, bottom_right_y := 20 }
           text := "hello" }] []
        ({ page_num := 1
           bbox := { top_left_x := 0, top_left_y := 0,
                     bottom_right_x := 600, bottom_right_y := 800 }
           blocks := [] }, true)).bordered_detector_consulted = false ∧
    (process_page 1 { top_left_x := 0, top_left_y := 0,
                      bottom_right_x := 600, bottom_right_y := 800 }
        [{ bbox := { top_left_x := 5, top_left_y := 5,
                     bottom_right_x := 50, bottom_right_y := 20 }
           text := "hello" }] []
        ({ page_num := 1
           bbox := { top_left_x := 0, top_left_y := 0,
                     bottom_right_x := 600, bottom_right_y := 800 }
           blocks := [] }, true)).free_text_extracted = false :=
  c10_no_inference_early_return 1 _ _ [] _ rfl

/-! ## Claim C2 — digit-density header fallback -/

/-- The fixed-baseline scan is a `takeWhile` against that baseline. -/
theorem header_scan_base_eq_takeWhile (base : ℚ) (l : List (List Cell)) :
    header_scan_base base l =
      l.takeWhile (fun row => decide (cnt_ciphers row ≤ base)) := by
  induction l with
  | nil => rfl
  | cons r t ih =>
    by_cases h : cnt_ciphers r > base
    · rw [header_scan_base, if_pos h, List.takeWhile_cons]
      simp [not_le.mpr h]
    · rw [header_scan_base, if_neg h, ih, List.takeWhile_cons]
      simp [not_lt.mp h]

/-- C2 (amended): `actualize_header` accepts every row whose digit density is
`≤` the density of row 0 — the baseline `current_ciphers` is set once from
row 0 and never updated — stopping at the first row strictly denser than row
0; a header covering all rows becomes the empty header. -/
theorem c2_actualize_header_row0_baseline (t : StructuredTable) (h : t.rows ≠ []) :
    actualize_header t = actualize_header_amended t := by
  have hs : header_scan t.rows = header_scan_amended t.rows := by
    cases t.rows with
    | nil => rfl
    | cons r0 rest =>
      simp only [header_scan, header_scan_amended, header_scan_base_eq_takeWhile]
  unfold actualize_header actualize_header_amended from_structured_and_rows
  rw [hs]

/-- Witness for C2 at the concrete four-row table (densities
`1/2, 1/5, 2/5, 1`). -/
theorem c2_witness :
    c2_table.rows ≠ [] ∧ actualize_header c2_table = actualize_header_amended c2_table :=
  ⟨by decide, c2_actualize_header_row0_baseline c2_table (by decide)⟩

/-- Counterexample to C2 as stated: on the four-row table with digit
densities `1/2, 1/5, 2/5, 1`, the source accepts rows 0-2 (each density is
`≤` row 0's `1/2`), while the claimed updating-baseline scan stops at row 2
(`2/5 > 1/5`), so the two headers differ. -/
theorem c2_counterexample :
    actualize_header c2_table ≠ actualize_header_claim c2_table := by
  have k0 : cnt_ciphers_counts (mk_text_row "a0") = (1, 2) := by decide
  have k1 : cnt_ciphers_counts (mk_text_row "aaaa0") = (1, 5) := by decide
  have k2 : cnt_ciphers_counts (mk_text_row "aa0a0") = (2, 5) := by decide
  have k3 : cnt_ciphers_counts (mk_text_row "00") = (2, 2) := by decide
  have d0 : cnt_ciphers (mk_text_row "a0") = 1 / 2 := by
    unfold cnt_ciphers; rw [k0]; norm_num
  have d1 : cnt_ciphers (mk_text_row "aaaa0") = 1 / 5 := by
    unfold cnt_ciphers; rw [k1]; norm_num
  have d2 : cnt_ciphers (mk_text_row "aa0a0") = 2 / 5 := by
    unfold cnt_ciphers; rw [k2]; norm_num
  have d3 : cnt_ciphers (mk_text_row "00") = 1 := by
    unfold cnt_ciphers; rw [k3]; norm_num
  have pB : decide (cnt_ciphers (mk_text_row "aaaa0") ≤ cnt_ciphers (mk_text_row "a0")) =
      true := by
    rw [d1, d0, decide_eq_true_eq]; norm_num
  have pC : decide (cnt_ciphers (mk_text_row "aa0a0") ≤ cnt_ciphers (mk_text_row "a0")) =
      true := by
    rw [d2, d0, decide_eq_true_eq]; norm_num
  have pD : decide (cnt_ciphers (mk_text_row "00") ≤ cnt_ciphers (mk_text_row "a0")) =
      false := by
    rw [d3, d0]; exact decide_eq_false (by norm_num)
  have hscan : header_scan c2_table.rows =
      [mk_text_row "a0", mk_text_row "aaaa0", mk_text_row "aa0a0"] := by
    show header_scan
      [mk_text_row "a0", mk_text_row "aaaa0", mk_text_row "aa0a0", mk_text_row "00"] = _
    simp only [header_scan]
    simp [List.takeWhile_cons, pB, pC, pD]
  have q1 : ¬(cnt_ciphers (mk_text_row "aaaa0") > cnt_ciphers (mk_text_row "a0")) := by
    rw [d1, d0]; norm_num
  have q2 : cnt_ciphers (mk_text_row "aa0a0") > cnt_ciphers (mk_text_row "aaaa0") := by
    rw [d2, d1]; norm_num
  have hclaim_scan : header_scan_claim c2_table.rows =
      [mk_text_row "a0", mk_text_row "aaaa0"] := by
    show header_scan_claim
      [mk_text_row "a0", mk_text_row "aaaa0", mk_text_row "aa0a0", mk_text_row "00"] = _
    simp only [header_scan_claim, header_scan_prev]
    rw [if_neg q1, if_pos q2]
  have hcode_h : (actualize_header c2_table).header =
      [mk_text_row "a0", mk_text_row "aaaa0", mk_text_row "aa0a0"] := by
    unfold actualize_header from_structured_and_rows
    rw [hscan]
    simp [c2_table]
  have hclaim_h : (actualize_header_claim c2_table).header =
      [mk_text_row "a0", mk_text_row "aaaa0"] := by
    unfold actualize_header_claim
    rw [hclaim_scan]
    simp [c2_table]
  intro heq
  have hh : (actualize_header c2_table).header = (actualize_header_claim c2_table).header := by
    rw [heq]
  rw [hcode_h, hclaim_h] at hh
  exact absurd hh (by decide)

/-! ## Claim C1 — line snapping of `bordered_to_struct` -/

/-- C1: the source's snap diverges from the claimed reference.  On the ideal
2×2 grid with bands meeting exactly at 10, the source pairs the sorted edges
from index 0 (`v_lines[2*i], v_lines[2*i+1]`), emitting the first band's
midpoint `5` and never collapsing the shared boundary, while the reference
(interior pairs, indices 1-2, 3-4, ...) returns the boundary `10`. -/
theorem c1_snap_divergence :
    bordered_v_lines c1_table = [0, 5, 20] ∧
    bordered_h_lines c1_table = [0, 5, 20] ∧
    snap_lines_spec [0, 10, 10, 20] = [0, 10, 20] ∧
    bordered_v_lines c1_table ≠ snap_lines_spec [0, 10, 10, 20] := by
  decide

/-! ## Claim C8 — idempotence of the snap -/

/-- `sorted_dedup` output is sorted. -/
theorem sorted_dedup_sorted (l : List Int) : (sorted_dedup l).Sorted (fun a b => a ≤ b) :=
  List.sorted_insertionSort _ _

/-- `sorted_dedup` output has no duplicates. -/
theorem sorted_dedup_nodup (l : List Int) : (sorted_dedup l).Nodup :=
  (List.perm_insertionSort _ _).nodup_iff.mpr (List.nodup_dedup l)

/-- `sorted_dedup` never lengthens a list. -/
theorem sorted_dedup_length_le (l : List Int) : (sorted_dedup l).length ≤ l.length := by
  have h1 : (sorted_dedup l).length = l.dedup.length :=
    (List.perm_insertionSort _ _).length_eq
  rw [h1]
  exact (List.dedup_sublist l).length_le

/-- Unfolding of `snap_core` on a nonempty (sorted) list. -/
theorem snap_core_cons (a : Int) (rest : List Int) :
    snap_core (a :: rest) =
      sorted_dedup ([a, rest.getLastD a] ++
        (List.range (rest.dropLast.length / 2)).map
          (fun i => ((a :: rest).getD (2 * i) 0 + (a :: rest).getD (2 * i + 1) 0).fdiv 2)) :=
  rfl

/-- The snap output is sorted and duplicate-free. -/
theorem snap_lines_sorted_nodup (xs : List Int) :
    (snap_lines xs).Sorted (fun a b => a ≤ b) ∧ (snap_lines xs).Nodup := by
  unfold snap_lines
  cases List.insertionSort (fun a b => a ≤ b) xs with
  | nil => constructor <;> simp [snap_core]
  | cons a rest =>
    rw [snap_core_cons]
    exact ⟨sorted_dedup_sorted _, sorted_dedup_nodup _⟩

/-- Snapping a list with at least three entries strictly shrinks it. -/
theorem snap_core_length_lt (a : Int) (rest : List Int) (h : 2 ≤ rest.length) :
    (snap_core (a :: rest)).length < (a :: rest).length := by
  rw [snap_core_cons]
  have hle := sorted_dedup_length_le ([a, rest.getLastD a] ++
    (List.range (rest.dropLast.length / 2)).map
      (fun i => ((a :: rest).getD (2 * i) 0 + (a :: rest).getD (2 * i + 1) 0).fdiv 2))
  have hlen : ([a, rest.getLastD a] ++
      (List.range (rest.dropLast.length / 2)).map
        (fun i => ((a :: rest).getD (2 * i) 0 + (a :: rest).getD (2 * i + 1) 0).fdiv 2)).length =
      2 + rest.dropLast.length / 2 := by
    simp only [List.length_append, List.length_map, List.length_range, List.length_cons,
      List.length_nil]
  rw [hlen] at hle
  have hd : rest.dropLast.length = rest.length - 1 := List.length_dropLast rest
  simp only [List.length_cons]
  omega

/-- Snapping an already-sorted list skips the sort. -/
theorem snap_lines_of_sorted {ys : List Int} (h : ys.Sorted (fun a b => a ≤ b)) :
    snap_lines ys = snap_core ys := by
  unfold snap_lines
  rw [List.Sorted.insertionSort_eq h]

/-- `sorted(list(set([a, a]))) = [a]`. -/
theorem sorted_dedup_self_pair (a : Int) : sorted_dedup [a, a] = [a] := by
  unfold sorted_dedup
  rw [List.dedup_cons_of_mem (by simp), List.dedup_cons_of_not_mem (List.not_mem_nil a),
    List.dedup_nil]
  rfl

/-- `sorted(list(set([a, b]))) = [a, b]` for `a ≤ b`, `a ≠ b`. -/
theorem sorted_dedup_pair {a b : Int} (hab : a ≤ b) (hne : a ≠ b) :
    sorted_dedup [a, b] = [a, b] := by
  unfold sorted_dedup
  rw [List.dedup_cons_of_not_mem (by simp [hne]),
    List.dedup_cons_of_not_mem (List.not_mem_nil b), List.dedup_nil]
  apply List.Sorted.insertionSort_eq
  simp [List.sorted_cons, hab]

/-- A snapped list of at most two lines is a fixed point of the snap. -/
theorem snap_fixed_of_small {ys : List Int} (hs : ys.Sorted (fun a b => a ≤ b))
    (hn : ys.Nodup) (hlen : ys.length ≤ 2) : snap_lines ys = ys := by
  rw [snap_lines_of_sorted hs]
  cases ys with
  | nil => rfl
  | cons a rest =>
    cases rest with
    | nil => exact sorted_dedup_self_pair a
    | cons b rest2 =>
      cases rest2 with
      | nil =>
        have hab : a ≤ b := List.rel_of_sorted_cons hs b (by simp)
        have hne : a ≠ b := by
          intro h
          subst h
          simp at hn
        have hsc : snap_core [a, b] = sorted_dedup [a, b] := by
          rw [snap_core_cons]
          simp
        rw [hsc]
        exact sorted_dedup_pair hab hne
      | cons c rest3 => simp at hlen

/-- A snapped list with three or more lines is changed again by the snap. -/
theorem snap_not_fixed_of_large {ys : List Int} (hs : ys.Sorted (fun a b => a ≤ b))
    (hlen : 3 ≤ ys.length) : snap_lines ys ≠ ys := by
  rw [snap_lines_of_sorted hs]
  cases ys with
  | nil => simp at hlen
  | cons a rest =>
    have hr : 2 ≤ rest.length := by
      simp only [List.length_cons] at hlen
      omega
    have hlt := snap_core_length_lt a rest hr
    intro heq
    rw [heq] at hlt
    exact lt_irrefl _ hlt

/-- C8 (amended): the snap of `bordered_to_struct` is *not* idempotent in
general — re-snapping an already-snapped edge list returns it unchanged
exactly when the snapped list has at most two lines (the outer bounds
alone); any snapped list retaining an interior line strictly loses lines on
re-snapping. -/
theorem c8_snap_idempotent_iff (xs : List Int) :
    snap_lines (snap_lines xs) = snap_lines xs ↔ (snap_lines xs).length ≤ 2 := by
  obtain ⟨hs, hn⟩ := snap_lines_sorted_nodup xs
  constructor
  · intro h
    by_contra hlen
    exact snap_not_fixed_of_large hs (by omega) h
  · intro hlen
    exact snap_fixed_of_small hs hn hlen

/-- Counterexample to C8 as stated: the edge list of three column bands
`x ∈ [0,10], [10,30], [30,50]` snaps to `[0, 5, 20, 50]`, and re-snapping
that list yields `[0, 2, 50] ≠ [0, 5, 20, 50]`. -/
theorem c8_counterexample :
    snap_lines (snap_lines [0, 10, 10, 30, 30, 50]) ≠
      snap_lines [0, 10, 10, 30, 30, 50] := by
  decide

/-! ## Claim C3 — `merge_closest_text_fields` self-merges the first field -/

/-- C3: the source's missing `else` makes the very first field compare
against itself.  A single narrow field (width 10, self-gap `-10 ∈ (-20,20)`)
comes out with its text duplicated (`"a a"`); a single wide field (width 100,
self-gap `-100 ∉ (-20,20)`) is emitted twice.  The claimed reference sweep
returns the field unchanged in both cases. -/
theorem c3_self_merge_divergence :
    merge_closest_text_fields [c3_field] = [{ bbox := c3_field.bbox, text := "a a" }] ∧
    merge_closest_text_fields_spec [c3_field] = [c3_field] ∧
    merge_closest_text_fields [c3_wide_field] = [c3_wide_field, c3_wide_field] ∧
    merge_closest_text_fields_spec [c3_wide_field] = [c3_wide_field] := by
  decide

/-! ## Claim C6 — `merge_text_fields` reconciliation -/

/-- Containment (threshold 0) is reflexive. -/
theorem box_is_inside_another_refl (x : BorderBox) : x.box_is_inside_another x = true := by
  simp [BorderBox.box_is_inside_another]

/-- Containment (threshold 0) is transitive. -/
theorem box_is_inside_another_trans {x y z : BorderBox}
    (h1 : x.box_is_inside_another y = true) (h2 : y.box_is_inside_another z = true) :
    x.box_is_inside_another z = true := by
  simp only [BorderBox.box_is_inside_another, Bool.and_eq_true, decide_eq_true_eq] at h1 h2 ⊢
  omega

/-- Any box is contained in its merge with another box. -/
theorem inside_merge_right (pad pop : BorderBox) :
    pop.box_is_inside_another (pad.merge pop) = true := by
  simp only [BorderBox.box_is_inside_another, BorderBox.merge, Bool.and_eq_true,
    decide_eq_true_eq]
  omega

/-- Merging with a contained box is the identity. -/
theorem merge_of_inside {pad pop : BorderBox} (h : pop.box_is_inside_another pad = true) :
    pad.merge pop = pad := by
  simp only [BorderBox.box_is_inside_another, Bool.and_eq_true, decide_eq_true_eq] at h
  simp only [BorderBox.merge]
  rw [min_eq_left (by omega), min_eq_left (by omega), max_eq_left (by omega),
    max_eq_left (by omega)]

/-- The phase-2 pass-through test of `merge_text_fields` — "no merged field
lies inside `pad`" — coincides, for `pad` drawn from the `paddle` list, with
"`pad` contains no `poppler` field". -/
theorem merged_all_iff (paddle_t_b poppler_t_b : List TextField) (pad : TextField)
    (hpad : pad ∈ paddle_t_b) :
    ((poppler_t_b.map (pop_merged paddle_t_b)).flatten.all
        (fun mer => ! mer.bbox.box_is_inside_another pad.bbox)) =
      (poppler_t_b.all (fun pop => ! pop.bbox.box_is_inside_another pad.bbox)) := by
  rw [Bool.eq_iff_iff]
  simp only [List.all_eq_true, List.mem_flatten, List.mem_map, Bool.not_eq_true',
    forall_exists_index, and_imp]
  constructor
  · intro h pop hpop
    by_contra hin
    rw [Bool.not_eq_false] at hin
    have hmer : ({ bbox := pad.bbox.merge pop.bbox, text := pop.text } : TextField) ∈
        pop_merged paddle_t_b pop := by
      simp only [pop_merged, List.mem_map, List.mem_filter]
      exact ⟨pad, ⟨hpad, hin⟩, rfl⟩
    have := h { bbox := pad.bbox.merge pop.bbox, text := pop.text }
      (pop_merged paddle_t_b pop) pop hpop rfl hmer
    rw [merge_of_inside hin] at this
    rw [box_is_inside_another_refl pad.bbox] at this
    exact Bool.true_eq_false.mp this
  · intro h mer l pop hpop hl hmer
    subst hl
    simp only [pop_merged, List.mem_map, List.mem_filter] at hmer
    obtain ⟨pad', ⟨hpad', hin'⟩, hmer'⟩ := hmer
    by_contra hfalse
    rw [Bool.not_eq_false] at hfalse
    have hpop_in_mer : pop.bbox.box_is_inside_another mer.bbox = true := by
      rw [← hmer']
      exact inside_merge_right pad'.bbox pop.bbox
    have : pop.bbox.box_is_inside_another pad.bbox = true :=
      box_is_inside_another_trans hpop_in_mer hfalse
    rw [h pop hpop] at this
    exact Bool.false_ne_true this

/-- C6 (amended): `merge_text_fields(A, B)` is exactly
`merged ++ unmatched-from-B ++ unmatched-from-A`, where the phase-2
unmatched-from-A fields are those in which no emitted merged field is
contained — equivalently, those containing no B field — and every A field
containing no B field, and every B field contained in no A field, appears in
the output. -/
theorem c6_merge_text_fields_characterization (paddle_t_b poppler_t_b : List TextField) :
    merge_text_fields paddle_t_b poppler_t_b =
      merge_text_fields_amended paddle_t_b poppler_t_b ∧
    (∀ pad ∈ paddle_t_b,
      (∃ pop ∈ poppler_t_b, pop.bbox.box_is_inside_another pad.bbox = true) ∨
        pad ∈ merge_text_fields paddle_t_b poppler_t_b) ∧
    (∀ pop ∈ poppler_t_b,
      (∃ pad ∈ paddle_t_b, pop.bbox.box_is_inside_another pad.bbox = true) ∨
        pop ∈ merge_text_fields paddle_t_b poppler_t_b) := by
  have hfilters : paddle_t_b.filter
        (fun pad => (poppler_t_b.map (pop_merged paddle_t_b)).flatten.all
          (fun mer => ! mer.bbox.box_is_inside_another pad.bbox)) =
      paddle_t_b.filter
        (fun pad => poppler_t_b.all (fun pop => ! pop.bbox.box_is_inside_another pad.bbox)) :=
    List.filter_congr (fun pad hpad => merged_all_iff paddle_t_b poppler_t_b pad hpad)
  refine ⟨?_, ?_, ?_⟩
  · simp only [merge_text_fields, merge_text_fields_amended]
    rw [hfilters]
  · intro pad hpad
    by_cases hex : ∃ pop ∈ poppler_t_b, pop.bbox.box_is_inside_another pad.bbox = true
    · exact Or.inl hex
    · refine Or.inr ?_
      simp only [merge_text_fields, List.mem_append]
      refine Or.inr ?_
      rw [hfilters]
      simp only [List.mem_filter, List.all_eq_true, Bool.not_eq_true']
      push_neg at hex
      exact ⟨hpad, fun pop hpop => Bool.not_eq_true _ ▸ (Bool.eq_false_iff.mpr (hex pop hpop))⟩
  · intro pop hpop
    by_cases hex : ∃ pad ∈ paddle_t_b, pop.bbox.box_is_inside_another pad.bbox = true
    · exact Or.inl hex
    · refine Or.inr ?_
      simp only [merge_text_fields, List.mem_append]
      refine Or.inl (Or.inr ?_)
      simp only [List.mem_filter, List.all_eq_true, Bool.not_eq_true']
      push_neg at hex
      exact ⟨hpop, fun pad hpad => Bool.eq_false_iff.mpr (hex pad hpad)⟩

/-- Witness for C6: in the counterexample configuration the nested `paddle`
field `A2` contains no `poppler` field and is passed through by the source. -/
theorem c6_witness :
    ({ bbox := { top_left_x := 50, top_left_y := 50, bottom_right_x := 60, bottom_right_y := 60 }
       text := "A2" } : TextField) ∈ merge_text_fields c6_paddle c6_poppler :=
  ((c6_merge_text_fields_characterization c6_paddle c6_poppler).2.1 _
    (by decide)).resolve_left (by decide)

/-- Counterexample to C6 as stated: with `A = [A1 ⊇ b, A2 strictly inside
merge(A1,b)]` and `B = [b]`, the source passes `A2` through (no merged field
lies inside `A2`) while the claimed phase-2 rule (`A2` is contained in the
emitted merged field) would drop it. -/
theorem c6_counterexample :
    merge_text_fields c6_paddle c6_poppler ≠ merge_text_fields_claim c6_paddle c6_poppler := by
  decide

/-! ## Claim C5 — bordered re-reconciliation thresholds -/

/-- The float comparison `a >= b * 0.5` on integer counts is the exact
rational comparison `2 * a ≥ b`. -/
theorem half_le_iff (a b : Nat) : ((a : ℚ) ≥ (b : ℚ) * (1 / 2)) ↔ 2 * a ≥ b := by
  rw [ge_iff_le, mul_one_div, div_le_iff (by norm_num : (0 : ℚ) < 2)]
  constructor
  · intro h
    have hb : b ≤ a * 2 := by exact_mod_cast h
    omega
  · intro h
    have hb : b ≤ a * 2 := by omega
    exact_mod_cast hb

/-- C5: when a bordered region contains a pending candidate (the first such
candidate in scan order), the line-snapped reconstruction replaces it iff
`bordered_score ≥ 0.5 × candidate.score` and `bordered_cell_count ≥ 0.5 ×
candidate.cell_count` (both `≥`, so the exact boundary adopts); otherwise the
original candidate is kept unchanged; in either case the matched candidate is
removed from the pending set and the loop reports a match. -/
theorem c5_bordered_reconciliation
    (inside_bordered : DetectedCand → Bool) (bordered_score : DetectedCand → Nat)
    (bordered_cell_count : Nat) (b_id : Nat) (pre post : List DetectedCand)
    (c : DetectedCand) (hpre : ∀ d ∈ pre, inside_bordered d = false)
    (hc : inside_bordered c = true) :
    (reconcile_bordered inside_bordered bordered_score bordered_cell_count true b_id
        (pre ++ c :: post)).1 = pre ++ post ∧
    (reconcile_bordered inside_bordered bordered_score bordered_cell_count true b_id
        (pre ++ c :: post)).2.2 = true ∧
    ((reconcile_bordered inside_bordered bordered_score bordered_cell_count true b_id
        (pre ++ c :: post)).2.1 = [PageEntry.borderedRecon b_id] ↔
      (2 * bordered_score c ≥ c.score ∧ 2 * bordered_cell_count ≥ c.cell_count)) ∧
    (¬(2 * bordered_score c ≥ c.score ∧ 2 * bordered_cell_count ≥ c.cell_count) →
      (reconcile_bordered inside_bordered bordered_score bordered_cell_count true b_id
        (pre ++ c :: post)).2.1 = [PageEntry.keptCandidate c.table_id]) := by
  induction pre with
  | nil =>
    simp only [List.nil_append]
    by_cases hq : ((bordered_score c : ℚ) ≥ (c.score : ℚ) * (1 / 2) ∧
        (bordered_cell_count : ℚ) ≥ (c.cell_count : ℚ) * (1 / 2))
    · have hnat : 2 * bordered_score c ≥ c.score ∧ 2 * bordered_cell_count ≥ c.cell_count :=
        ⟨(half_le_iff _ _).mp hq.1, (half_le_iff _ _).mp hq.2⟩
      simp [reconcile_bordered, hc, hnat]
      constructor
      · rw [← one_div]
        exact hq.1
      · rw [← one_div]
        exact hq.2
    · have hnat : ¬(2 * bordered_score c ≥ c.score ∧ 2 * bordered_cell_count ≥ c.cell_count) :=
        fun h => hq ⟨(half_le_iff _ _).mpr h.1, (half_le_iff _ _).mpr h.2⟩
      simp [reconcile_bordered, hc, hnat]
      intro hA
      rw [← one_div] at hA
      by_contra hcon
      push_neg at hcon
      rw [← one_div] at hcon
      exact hq ⟨hA, hcon⟩
  | cons d pre' ih =>
    have hd : inside_bordered d = false := hpre d (by simp)
    have hpre' : ∀ x ∈ pre', inside_bordered x = false := fun x hx => hpre x (by simp [hx])
    obtain ⟨ih1, ih2, ih3, ih4⟩ := ih hpre'
    simp only [List.cons_append, reconcile_bordered, hd, Bool.false_eq_true, if_false]
    exact ⟨by simp [ih1], by simp [ih2], by simpa using ih3, fun h => by simpa using ih4 h⟩

/-- Witness for C5 at the spec's boundary example: candidate `score=10,
cells=8`; `bordered_score=5, bordered_cells=4` adopts the reconstruction
(both halved comparisons hold with equality) and removes the candidate;
`bordered_score=4` keeps the candidate instead. -/
theorem c5_witness :
    (reconcile_bordered (fun d => decide (d.table_id = 0)) (fun _ => 5) 4 true 42
        [c5_cand, c5_other]).1 = [c5_other] ∧
    (reconcile_bordered (fun d => decide (d.table_id = 0)) (fun _ => 5) 4 true 42
        [c5_cand, c5_other]).2.1 = [PageEntry.borderedRecon 42] ∧
    (reconcile_bordered (fun d => decide (d.table_id = 0)) (fun _ => 4) 4 true 42
        [c5_cand, c5_other]).2.1 = [PageEntry.keptCandidate 0] := by
  obtain ⟨h1, _, h3, _⟩ := c5_bordered_reconciliation (fun d => decide (d.table_id = 0))
    (fun _ => 5) 4 42 [] [c5_other] c5_cand (by intro d hd; simp at hd) (by decide)
  obtain ⟨_, _, _, h4⟩ := c5_bordered_reconciliation (fun d => decide (d.table_id = 0))
    (fun _ => 4) 4 42 [] [c5_other] c5_cand (by intro d hd; simp at hd) (by decide)
  exact ⟨h1, h3.mpr (by decide), h4 (by decide)⟩

/-! ## Claim C7 — classifier-based header inference -/

/-- The float-division test of `analyse` in integer form: header-like iff the
count of header-leaning cells exceeds `length/5` (more than 5 cells) resp.
`length/2` (otherwise). -/
theorem analyse_iff (series : List ScoredCell) :
    analyse series = true ↔
      (if series.length > 5 then
        5 * (series.filter (fun cell => decide (cell.header_score > cell.cell_score))).length >
          series.length
      else
        2 * (series.filter (fun cell => decide (cell.header_score > cell.cell_score))).length >
          series.length) := by
  simp only [analyse]
  by_cases h : series.length > 5
  · rw [if_pos h, if_pos h, decide_eq_true_eq, gt_iff_lt,
      div_lt_iff (by norm_num : (0 : ℚ) < ((5 : ℕ) : ℚ))]
    constructor
    · intro hx
      have hx2 : series.length <
          (series.filter (fun cell => decide (cell.header_score > cell.cell_score))).length *
            5 := by
        exact_mod_cast hx
      omega
    · intro hx
      have hx2 : series.length <
          (series.filter (fun cell => decide (cell.header_score > cell.cell_score))).length *
            5 := by
        omega
      exact_mod_cast hx2
  · rw [if_neg h, if_neg h, decide_eq_true_eq, gt_iff_lt,
      div_lt_iff (by norm_num : (0 : ℚ) < 2)]
    constructor
    · intro hx
      have hx2 : series.length <
          (series.filter (fun cell => decide (cell.header_score > cell.cell_score))).length *
            2 := by
        exact_mod_cast hx
      omega
    · intro hx
      have hx2 : series.length <
          (series.filter (fun cell => decide (cell.header_score > cell.cell_score))).length *
            2 := by
        omega
      exact_mod_cast hx2

/-- The `last_header` fold keeps the index of the last header-like line. -/
theorem foldl_last_header_idx (l : List (Nat × List ScoredCell)) (acc : Option Nat) :
    l.foldl (fun acc p => if analyse p.2 then some p.1 else acc) acc =
      (((l.filter (fun p => analyse p.2)).map Prod.fst).getLast?).or acc := by
  induction l using List.reverseRecOn with
  | nil => simp
  | append_singleton l p ih =>
    rw [List.foldl_append]
    by_cases hp : analyse p.2
    · simp [List.filter_append, hp, List.getLast?_concat]
    · simp [List.filter_append, hp, ih]

/-- A recorded last-header index lies below the scan limit. -/
theorem last_header_idx_lt (series : List (List ScoredCell)) (limit k : Nat)
    (h : (((series.take limit).enum.filter (fun p => analyse p.2)).map Prod.fst).getLast? =
      some k) : k < limit := by
  have hk := List.mem_of_getLast?_eq_some h
  simp only [List.mem_map] at hk
  obtain ⟨p, hpf, hfst⟩ := hk
  have hpe : p ∈ (series.take limit).enum := List.mem_of_mem_filter hpf
  have hget : (series.take limit).get? p.1 = some p.2 := List.mem_enum_iff_get?.mp hpe
  have hlt : p.1 < (series.take limit).length := by
    by_contra hge
    rw [List.get?_eq_none.mpr (by omega)] at hget
    exact Option.noConfusion hget
  have hle : (series.take limit).length ≤ limit := by
    rw [List.length_take]
    exact min_le_left _ _
  omega

/-- C7: `create_header` equals its claimed description — the header is lines
0 through the last header-like index among the first `header_limit` lines
inclusive (non-header-like lines in between included), empty when no line is
header-like, and discarded when covering more than 75% of all lines; a line
is header-like per the `analyse` threshold rule; and on the spec's 10-row
example with limit 6 the header is rows 0-4. -/
theorem c7_create_header_policy :
    (∀ (series : List (List ScoredCell)) (header_limit : Nat),
      create_header series header_limit = create_header_claim series header_limit) ∧
    (∀ series : List ScoredCell, analyse series = true ↔
      (if series.length > 5 then
        5 * (series.filter (fun cell => decide (cell.header_score > cell.cell_score))).length >
          series.length
      else
        2 * (series.filter (fun cell => decide (cell.header_score > cell.cell_score))).length >
          series.length)) ∧
    create_header c7_series 6 =
      [[c7_header_cell], [c7_header_cell], [c7_header_cell], [c7_body_cell],
        [c7_header_cell]] := by
  have ha_h : analyse [c7_header_cell] = true := (analyse_iff _).mpr (by decide)
  have ha_b : analyse [c7_body_cell] = false := by
    rw [Bool.eq_false_iff]
    intro htrue
    exact absurd ((analyse_iff _).mp htrue) (by decide)
  have main : ∀ (series : List (List ScoredCell)) (limit : Nat),
      create_header series limit = create_header_claim series limit := by
    intro series limit
    have hfold : last_header_idx series limit =
        (((series.take limit).enum.filter (fun p => analyse p.2)).map Prod.fst).getLast? := by
      unfold last_header_idx
      rw [foldl_last_header_idx, Option.or_none]
    unfold create_header create_header_claim header_of_idx
    rw [hfold]
    cases hl : (((series.take limit).enum.filter (fun p => analyse p.2)).map
        Prod.fst).getLast? with
    | none => simp [header_upto, claim_header_of]
    | some k =>
      have hk : k < limit := last_header_idx_lt series limit k hl
      simp only [header_upto, claim_header_of]
      simp only [List.take_take, min_eq_left (show k + 1 ≤ limit by omega)]
  refine ⟨main, analyse_iff, ?_⟩
  have hidx : last_header_idx c7_series 6 = some 4 := by
    have henum : (c7_series.take 6).enum =
        [(0, [c7_header_cell]), (1, [c7_header_cell]), (2, [c7_header_cell]),
          (3, [c7_body_cell]), (4, [c7_header_cell]), (5, [c7_body_cell])] := rfl
    unfold last_header_idx
    rw [henum]
    simp [ha_h, ha_b]
  have hheader : header_of_idx c7_series 6 =
      [[c7_header_cell], [c7_header_cell], [c7_header_cell], [c7_body_cell],
        [c7_header_cell]] := by
    unfold header_of_idx
    rw [hidx]
    rfl
  have hq : decide ((((5 : ℕ) : ℚ)) > (3 / 4) * (((10 : ℕ)) : ℚ)) = false :=
    decide_eq_false (by norm_num)
  unfold create_header
  rw [hheader]
  have hlen5 : ([[c7_header_cell], [c7_header_cell], [c7_header_cell], [c7_body_cell],
      [c7_header_cell]] : List (List ScoredCell)).length = 5 := rfl
  have hlen10 : c7_series.length = 10 := rfl
  rw [hlen5, hlen10, hq]
  simp
